import Mathlib

/-!
Shallow embedding of `agent/association/executer/executer.go` from the
amazon-ssm-agent repository: the association document executer.

External collaborators (durable document store, plugin engine, worker pool,
status reporting service, json marshalling, platform id lookup, reply
builder) are modelled as an explicit environment of oracles; each executer
operation returns, besides its Go return value and the mutated document
state, a trace of the externally visible effect events it issues, in order.
-/

namespace Executer

/-- Go `contracts.ResultStatus` is a string type; statuses are its values. -/
abbrev ResultStatus := String

/-- Modelled from the spec: the `contracts` status vocabulary is not under
src/. The spec's status aggregator section equates "status is set" with
"non-empty/non-not-started", so the not-started (unset) status is the empty
string and the remaining codes are distinct non-empty strings. -/
def resultStatusNotStarted : ResultStatus := ""

def resultStatusInProgress : ResultStatus := "InProgress"

def resultStatusSuccess : ResultStatus := "Success"

def resultStatusSuccessAndReboot : ResultStatus := "SuccessAndReboot"

def resultStatusPassedAndReboot : ResultStatus := "PassedAndReboot"

def resultStatusFailed : ResultStatus := "Failed"

def resultStatusTimedOut : ResultStatus := "TimedOut"

def resultStatusCancelled : ResultStatus := "Cancelled"

/-- Modelled from the spec: association status vocabulary exchanged with the
Status Reporter (the `contracts`/`ssm` packages are not under src/). -/
def associationStatusPending : String := "Pending"

def associationStatusInProgress : String := "InProgress"

def associationStatusSuccess : String := "Success"

/-- `ssm.AssociationStatusNameFailed` -/
def associationStatusNameFailed : String := "Failed"

/-- Modelled from the spec: error-code vocabulary `{none, execution-error}`. -/
def associationErrorCodeNoError : String := "NoError"

def associationErrorCodeExecutionError : String := "ExecutionError"

/-- Modelled from the spec: the durable store's fixed lifecycle locations
(`appconfig` package is not under src/). -/
def defaultLocationOfPending : String := "pending"

def defaultLocationOfCurrent : String := "current"

def defaultLocationOfCompleted : String := "completed"

/-- Go `const documentPendingMessage` in executer.go. -/
def documentPendingMessage : String := "Association is pending"

/-- Go `contracts.PluginRuntimeStatus`: only the `Status` field is read by
this package; `Output` stands for the remaining payload. -/
structure PluginRuntimeStatus where
  status : ResultStatus
  output : String
  deriving DecidableEq, Repr

/-- Go `map[string]*contracts.PluginRuntimeStatus`, as an entry list (Go map
keys are unique; the embedding treats entries positionally). -/
abbrev RuntimeStatusMap := List (String × PluginRuntimeStatus)

/-- Go `contracts.PluginResult`: opaque to this package beyond being the
input of marshalling and of `reply.PrepareRuntimeStatuses`. -/
structure PluginResult where
  status : ResultStatus
  output : String
  deriving DecidableEq, Repr

/-- Go `map[string]*contracts.PluginResult`. -/
abbrev PluginOutputs := List (String × PluginResult)

/-- Go `stateModel.DocumentInfo` (fields this package reads or writes; the
reboot-required flag is the spec's data-model field, see `IsRebootRequired`). -/
structure DocumentInfo where
  associationID : String
  documentID : String
  documentName : String
  instanceID : String
  createdDate : String
  documentStatus : ResultStatus
  runtimeStatus : RuntimeStatusMap
  additionalInfo : String
  documentTraceOutput : String
  rebootRequired : Bool
  deriving DecidableEq, Repr

/-- One plugin configuration of `docState.InstancePluginsInformation`; only
the list length is read by the executer. -/
structure PluginState where
  name : String
  deriving DecidableEq, Repr

/-- Go `stateModel.DocumentState`. -/
structure DocumentState where
  documentInformation : DocumentInfo
  instancePluginsInformation : List PluginState
  deriving DecidableEq, Repr

/-- Modelled from the spec: `DocumentState.IsRebootRequired` lives in the
`agent/statemanager/model` package, which is not under src/; per the spec's
data model it reads the document's reboot-required flag. -/
def DocumentState.IsRebootRequired (docState : DocumentState) : Bool :=
  docState.documentInformation.rebootRequired

/-- Go `reply.PrepareReplyPayload` result: the four fields the executer
copies out of it. -/
structure ReplyPayload where
  additionalInfo : String
  documentStatus : ResultStatus
  documentTraceOutput : String
  runtimeStatus : RuntimeStatusMap
  deriving DecidableEq, Repr

/-- Externally visible effect events issued by the executer, in order. -/
inductive Event where
  | updateStatus (associationID documentName instanceID status errorCode message : String)
  | moveDocument (documentID instanceID fromLoc toLoc : String)
  | getDocumentInfo (documentID instanceID location : String)
  | persistDocumentInfo (documentID instanceID location : String)
  | runPlugins (associationID : String)
  | submit (key : String)
  | updateNextScheduledDate (associationID : String)
  | executeAssociation
  | logError (message : String)
  deriving DecidableEq, Repr

/-- The environment of external collaborators: results the oracles hand back
to the executer. `marshalOutputsA`/`marshalOutputsB` are the first and second
`jsonutil.Marshal(outputs)` calls inside `ExecuteInProgressDocument`,
`marshalOutputsCB` the one inside `pluginExecutionReport`, and
`marshalRuntimeStatuses` the one inside `associationExecutionReport`. -/
structure Env where
  runPluginsResult : PluginOutputs
  marshalOutputsA : PluginOutputs → Except String String
  marshalOutputsB : PluginOutputs → Except String String
  marshalOutputsCB : PluginOutputs → Except String String
  marshalRuntimeStatuses : RuntimeStatusMap → Except String String
  getDocumentInfo : String → String → String → DocumentInfo
  prepareRuntimeStatuses : PluginOutputs → RuntimeStatusMap
  prepareReplyPayload : RuntimeStatusMap → ReplyPayload
  isInstanceAssociationApiMode : Bool
  instanceID : Except String String
  submitResult : Option String

/-- Go `filterByStatus`: keep the entries whose status satisfies the
predicate. -/
def filterByStatus (runtimeStatuses : RuntimeStatusMap)
    (predicate : ResultStatus → Bool) : RuntimeStatusMap :=
  runtimeStatuses.filter fun entry => predicate entry.2.status

/-- Go `fmt.Sprintf(outputMessageTemplate, ...)` with
`outputMessageTemplate = "%v out of %v plugin%v processed, %v success, %v failed, %v timedout"`. -/
def outputMessageTemplate (completed total : Nat) (plural : String)
    (success failed timedOut : Nat) : String :=
  toString completed ++ " out of " ++ toString total ++ " plugin" ++ plural ++
    " processed, " ++ toString success ++ " success, " ++ toString failed ++
    " failed, " ++ toString timedOut ++ " timedout"

/-- Go `buildOutput`: build the output message for association update. -/
def buildOutput (runtimeStatuses : RuntimeStatusMap)
    (totalNumberOfPlugins : Nat) : String :=
  let plural := if totalNumberOfPlugins > 1 then "s" else ""
  let completed := (filterByStatus runtimeStatuses fun status =>
    status != "").length
  let success := (filterByStatus runtimeStatuses fun status =>
    status == resultStatusPassedAndReboot ||
    status == resultStatusSuccessAndReboot ||
    status == resultStatusSuccess).length
  let failed := (filterByStatus runtimeStatuses fun status =>
    status == resultStatusFailed).length
  let timedOut := (filterByStatus runtimeStatuses fun status =>
    status == resultStatusTimedOut).length
  outputMessageTemplate completed totalNumberOfPlugins plural success failed timedOut

/-- Go `parseAndPersistReplyContents`: reload the interim document info from
the current location, overlay it with the reply payload's four fields, and
persist it back to the current location. Returns the mutated document state
(the Go receiver mutates `docState` through a pointer) and the event trace. -/
def parseAndPersistReplyContents (env : Env) (docState : DocumentState)
    (pluginOutputs : PluginOutputs) : DocumentState × List Event :=
  let reloaded := env.getDocumentInfo docState.documentInformation.documentID
    docState.documentInformation.instanceID defaultLocationOfCurrent
  let runtimeStatuses := env.prepareRuntimeStatuses pluginOutputs
  let replyPayload := env.prepareReplyPayload runtimeStatuses
  let merged : DocumentInfo := { reloaded with
    additionalInfo := replyPayload.additionalInfo
    documentStatus := replyPayload.documentStatus
    documentTraceOutput := replyPayload.documentTraceOutput
    runtimeStatus := replyPayload.runtimeStatus }
  ({ docState with documentInformation := merged },
    [Event.getDocumentInfo docState.documentInformation.documentID
      docState.documentInformation.instanceID defaultLocationOfCurrent,
     Event.persistDocumentInfo merged.documentID merged.instanceID
      defaultLocationOfCurrent])

/-- Go `associationExecutionReport`: marshal the runtime statuses (on failure
log and return), then push the terminal association status update with the
built execution summary. -/
def associationExecutionReport (env : Env) (docInfo : DocumentInfo)
    (runtimeStatuses : RuntimeStatusMap) (totalNumberOfPlugins : Nat)
    (errorCode : String) (associationStatus : String) : List Event :=
  match env.marshalRuntimeStatuses runtimeStatuses with
  | Except.error _ => [Event.logError "could not marshal plugin outputs"]
  | Except.ok _ =>
    [Event.updateStatus docInfo.associationID docInfo.documentName
      docInfo.instanceID associationStatus errorCode
      (buildOutput runtimeStatuses totalNumberOfPlugins)]

/-- Go `pluginExecutionReport`: the per-plugin progress callback handed to the
plugin engine. Marshal failures and instance-id lookup failures are logged
and swallowed; legacy (non instance-association) API mode skips the update. -/
def pluginExecutionReport (env : Env) (associationID : String)
    (pluginOutputs : PluginOutputs) (totalNumberOfPlugins : Nat) : List Event :=
  match env.marshalOutputsCB pluginOutputs with
  | Except.error _ => [Event.logError "could not marshal plugin outputs!"]
  | Except.ok _ =>
    if !env.isInstanceAssociationApiMode then []
    else
      match env.instanceID with
      | Except.error _ => [Event.logError "failed to load instance id"]
      | Except.ok instanceID =>
        let runtimeStatuses := env.prepareRuntimeStatuses pluginOutputs
        let executionSummary := buildOutput runtimeStatuses totalNumberOfPlugins
        [Event.updateStatus associationID "" instanceID
          associationStatusInProgress associationErrorCodeNoError
          executionSummary]

/-- The body of Go `ExecuteInProgressDocument`, without the deferred block:
run the plugins, marshal the outputs (early return on failure), persist the
reply, halt if a reboot is required, re-marshal (early return on failure),
report the terminal status for Failed/Success aggregate statuses, and move
the document from current to completed. -/
def ExecuteInProgressDocumentBody (env : Env) (docState : DocumentState) :
    DocumentState × List Event :=
  let totalNumberOfActions := docState.instancePluginsInformation.length
  let outputs := env.runPluginsResult
  let runTrace := [Event.runPlugins docState.documentInformation.associationID]
  match env.marshalOutputsA outputs with
  | Except.error _ =>
    (docState, runTrace ++ [Event.logError "failed to parse to json string"])
  | Except.ok _ =>
    let persisted := parseAndPersistReplyContents env docState outputs
    let docState1 := persisted.1
    if docState1.IsRebootRequired then
      (docState1, runTrace ++ persisted.2)
    else
      match env.marshalOutputsB outputs with
      | Except.error _ =>
        (docState1, runTrace ++ persisted.2 ++
          [Event.logError "failed to parse to json string"])
      | Except.ok _ =>
        let reportTrace :=
          if docState1.documentInformation.documentStatus = resultStatusFailed then
            associationExecutionReport env docState1.documentInformation
              docState1.documentInformation.runtimeStatus totalNumberOfActions
              associationErrorCodeExecutionError associationStatusNameFailed
          else if docState1.documentInformation.documentStatus = resultStatusSuccess then
            associationExecutionReport env docState1.documentInformation
              docState1.documentInformation.runtimeStatus totalNumberOfActions
              associationErrorCodeNoError associationStatusSuccess
          else []
        (docState1, runTrace ++ persisted.2 ++ reportTrace ++
          [Event.moveDocument docState1.documentInformation.documentID
            docState1.documentInformation.instanceID defaultLocationOfCurrent
            defaultLocationOfCompleted])

/-- Go `ExecuteInProgressDocument`: the body wrapped by the deferred block,
which runs on every exit path and reads the association id from the (by then
possibly mutated) document state. -/
def ExecuteInProgressDocument (env : Env) (docState : DocumentState) :
    DocumentState × List Event :=
  let result := ExecuteInProgressDocumentBody env docState
  (result.1, result.2 ++
    [Event.updateNextScheduledDate result.1.documentInformation.associationID,
     Event.executeAssociation])

/-- Go `ExecutePendingDocument`: report pending status, move the document
from pending to current, submit the execution to the worker pool; a
submission failure is returned wrapped. `none` models Go's `nil` error. -/
def ExecutePendingDocument (env : Env) (docState : DocumentState) :
    Option String × List Event :=
  let info := docState.documentInformation
  let trace :=
    [Event.updateStatus info.associationID info.documentName info.instanceID
      associationStatusPending associationErrorCodeNoError documentPendingMessage,
     Event.moveDocument info.documentID info.instanceID
      defaultLocationOfPending defaultLocationOfCurrent,
     Event.submit info.associationID]
  match env.submitResult with
  | some err => (some ("failed to process association, " ++ err), trace)
  | none => (none, trace)

/-- Store semantics of an event for one document's lifecycle location: only a
matching `moveDocument` whose source location matches changes it. -/
def applyEvent (documentID instanceID : String) (location : String)
    (event : Event) : String :=
  match event with
  | Event.moveDocument d i fromLoc toLoc =>
    if d = documentID ∧ i = instanceID ∧ fromLoc = location then toLoc
    else location
  | _ => location

/-- Run a trace against one document's lifecycle location. -/
def runEvents (documentID instanceID : String) (location : String)
    (trace : List Event) : String :=
  trace.foldl (applyEvent documentID instanceID) location

/-- Recognizer for the deferred next-run recomputation event. -/
def isUpdateNextScheduledDate : Event → Bool
  | Event.updateNextScheduledDate _ => true
  | _ => false

/-- Recognizer for the deferred dependent-notification event. -/
def isExecuteAssociation : Event → Bool
  | Event.executeAssociation => true
  | _ => false

/-- Recognizer for remote status-update events. -/
def isUpdateStatus : Event → Bool
  | Event.updateStatus _ _ _ _ _ _ => true
  | _ => false

/-- Recognizer for document-move events. -/
def isMoveDocument : Event → Bool
  | Event.moveDocument _ _ _ _ => true
  | _ => false

/-- A concrete document info used to instantiate universally quantified
statements on concrete inputs. -/
def sampleInfo : DocumentInfo :=
  { associationID := "assoc-1"
    documentID := "doc-1"
    documentName := "AWS-RunShellScript"
    instanceID := "i-0abc"
    createdDate := "2016-06-01T00:00:00Z"
    documentStatus := resultStatusInProgress
    runtimeStatus := []
    additionalInfo := ""
    documentTraceOutput := ""
    rebootRequired := false }

/-- A concrete document state with one plugin. -/
def sampleDocState : DocumentState :=
  { documentInformation := sampleInfo
    instancePluginsInformation := [{ name := "aws:runShellScript" }] }

/-- A concrete environment in which every external call succeeds. -/
def sampleEnv : Env :=
  { runPluginsResult := [("aws:runShellScript",
      { status := resultStatusSuccess, output := "ok" })]
    marshalOutputsA := fun _ => Except.ok "json"
    marshalOutputsB := fun _ => Except.ok "json"
    marshalOutputsCB := fun _ => Except.ok "json"
    marshalRuntimeStatuses := fun _ => Except.ok "json"
    getDocumentInfo := fun _ _ _ => sampleInfo
    prepareRuntimeStatuses := fun outputs => outputs.map fun entry =>
      (entry.1, { status := entry.2.status, output := entry.2.output })
    prepareReplyPayload := fun runtimeStatuses =>
      { additionalInfo := "agent-info"
        documentStatus := resultStatusSuccess
        documentTraceOutput := "trace"
        runtimeStatus := runtimeStatuses }
    isInstanceAssociationApiMode := true
    instanceID := Except.ok "i-0abc"
    submitResult := none }

/-- Recognizer for the events the body of the execution routine may emit:
everything except the two deferred cleanup events. -/
def isBodyEvent : Event → Bool
  | Event.updateNextScheduledDate _ => false
  | Event.executeAssociation => false
  | _ => true

/-- The document state as it stands right after the reply-persistence step of
`ExecuteInProgressDocument` (the state inspected by the reboot check and the
terminal-status dispatch). -/
def mergedDocState (env : Env) (docState : DocumentState) : DocumentState :=
  (parseAndPersistReplyContents env docState env.runPluginsResult).1

/-- Environment in which the reloaded snapshot carries the reboot flag. -/
def sampleEnvReboot : Env :=
  { sampleEnv with getDocumentInfo := fun _ _ _ =>
      { sampleInfo with rebootRequired := true } }

/-- Environment in which the first marshalling of the plugin outputs fails. -/
def sampleEnvMarshalAFail : Env :=
  { sampleEnv with marshalOutputsA := fun _ => Except.error "bad json" }

/-- Environment in which the second marshalling of the plugin outputs fails. -/
def sampleEnvMarshalBFail : Env :=
  { sampleEnv with marshalOutputsB := fun _ => Except.error "bad json" }

/-- Environment in which the reply builder yields a Failed aggregate status. -/
def sampleEnvFailedStatus : Env :=
  { sampleEnv with prepareReplyPayload := fun runtimeStatuses =>
      { additionalInfo := "agent-info"
        documentStatus := resultStatusFailed
        documentTraceOutput := "trace"
        runtimeStatus := runtimeStatuses } }

/-- Environment in which the reply builder yields an aggregate status that is
neither Failed nor Success. -/
def sampleEnvOtherStatus : Env :=
  { sampleEnv with prepareReplyPayload := fun runtimeStatuses =>
      { additionalInfo := "agent-info"
        documentStatus := resultStatusInProgress
        documentTraceOutput := "trace"
        runtimeStatus := runtimeStatuses } }

/-- Environment running against the legacy association API (no per-plugin
status updates). -/
def sampleEnvLegacy : Env :=
  { sampleEnv with isInstanceAssociationApiMode := false }

/-- Environment in which the progress-callback marshalling fails. -/
def sampleEnvMarshalCBFail : Env :=
  { sampleEnv with marshalOutputsCB := fun _ => Except.error "bad json" }

/-- Environment in which the local instance id cannot be resolved. -/
def sampleEnvNoInstanceID : Env :=
  { sampleEnv with instanceID := Except.error "no metadata" }

/-- Environment in which the worker pool rejects the submission. -/
def sampleEnvSubmitFail : Env :=
  { sampleEnv with submitResult := some "pool is closed" }

/-- On every branch of the body of `ExecuteInProgressDocument` (marshal
failure, reboot halt, second marshal failure, failed/success/silent terminal
reporting), no event satisfying `p` is emitted, provided `p` rejects the six
body event kinds. -/
theorem body_trace_countP_eq_zero (env : Env) (docState : DocumentState)
    (p : Event → Bool)
    (hrun : ∀ a, p (Event.runPlugins a) = false)
    (hlog : ∀ m, p (Event.logError m) = false)
    (hget : ∀ d i l, p (Event.getDocumentInfo d i l) = false)
    (hper : ∀ d i l, p (Event.persistDocumentInfo d i l) = false)
    (hupd : ∀ a b c d f g, p (Event.updateStatus a b c d f g) = false)
    (hmov : ∀ a b c d, p (Event.moveDocument a b c d) = false) :
    (ExecuteInProgressDocumentBody env docState).2.countP p = 0 := by
  unfold ExecuteInProgressDocumentBody parseAndPersistReplyContents
    associationExecutionReport
  dsimp only
  repeat' split
  all_goals simp [List.countP_append, List.countP_cons,
    hrun, hlog, hget, hper, hupd, hmov]

/-- C1: for every invocation of the execution routine
`ExecuteInProgressDocument` — normal completion, reboot halt, or early return
on a marshalling failure — the next-run recomputation
(`UpdateNextScheduledDate`) followed by the dependent notification
(`signal.ExecuteAssociation`) executes exactly once, never zero or twice, as
the deferred suffix of the event trace. -/
theorem C1_deferred_cleanup_exactly_once (env : Env) (docState : DocumentState) :
    (ExecuteInProgressDocument env docState).2.countP isUpdateNextScheduledDate = 1 ∧
    (ExecuteInProgressDocument env docState).2.countP isExecuteAssociation = 1 ∧
    (ExecuteInProgressDocument env docState).2 =
      (ExecuteInProgressDocumentBody env docState).2 ++
        [Event.updateNextScheduledDate
          (ExecuteInProgressDocumentBody env docState).1.documentInformation.associationID,
         Event.executeAssociation] := by
  have hu := body_trace_countP_eq_zero env docState isUpdateNextScheduledDate
    (fun _ => rfl) (fun _ => rfl) (fun _ _ _ => rfl) (fun _ _ _ => rfl)
    (fun _ _ _ _ _ _ => rfl) (fun _ _ _ _ => rfl)
  have he := body_trace_countP_eq_zero env docState isExecuteAssociation
    (fun _ => rfl) (fun _ => rfl) (fun _ _ _ => rfl) (fun _ _ _ => rfl)
    (fun _ _ _ _ _ _ => rfl) (fun _ _ _ _ => rfl)
  refine ⟨?_, ?_, rfl⟩
  · show ((ExecuteInProgressDocumentBody env docState).2 ++
      [Event.updateNextScheduledDate _, Event.executeAssociation]).countP
        isUpdateNextScheduledDate = 1
    rw [List.countP_append, hu]
    simp [isUpdateNextScheduledDate, isExecuteAssociation, List.countP_cons]
  · show ((ExecuteInProgressDocumentBody env docState).2 ++
      [Event.updateNextScheduledDate _, Event.executeAssociation]).countP
        isExecuteAssociation = 1
    rw [List.countP_append, he]
    simp [isUpdateNextScheduledDate, isExecuteAssociation, List.countP_cons]

/-- C2: when the reboot-required flag of the document is set after plugin
execution and reply persistence (and the outputs marshalled), the execution
routine makes no status-update call, emits no document move (the document is
never moved out of the current location, for any document key or starting
location), and the deferred next-run recomputation and dependent notification
still execute exactly once. -/
theorem C2_reboot_halt (env : Env) (docState : DocumentState) (s : String)
    (hA : env.marshalOutputsA env.runPluginsResult = Except.ok s)
    (hR : (mergedDocState env docState).IsRebootRequired = true) :
    (ExecuteInProgressDocument env docState).2.countP isUpdateStatus = 0 ∧
    (ExecuteInProgressDocument env docState).2.countP isMoveDocument = 0 ∧
    (∀ d i loc, runEvents d i loc (ExecuteInProgressDocument env docState).2 = loc) ∧
    (ExecuteInProgressDocument env docState).2.countP isUpdateNextScheduledDate = 1 ∧
    (ExecuteInProgressDocument env docState).2.countP isExecuteAssociation = 1 := by
  unfold mergedDocState at hR
  have htr : (ExecuteInProgressDocument env docState).2 =
      Event.runPlugins docState.documentInformation.associationID ::
      (parseAndPersistReplyContents env docState env.runPluginsResult).2 ++
      [Event.updateNextScheduledDate
        (parseAndPersistReplyContents env docState
          env.runPluginsResult).1.documentInformation.associationID,
       Event.executeAssociation] := by
    unfold ExecuteInProgressDocument ExecuteInProgressDocumentBody
    dsimp only
    simp only [hA, hR, if_true]
    simp
  rw [htr]
  simp [parseAndPersistReplyContents, runEvents, applyEvent, isUpdateStatus,
    isMoveDocument, isUpdateNextScheduledDate, isExecuteAssociation,
    List.countP_cons, List.countP_append]

/-- Concrete instance of the reboot-halt behaviour: with the reboot flag set
in the reloaded snapshot, no status update and no document move are emitted,
the store location is unchanged, and the cleanup pair fires exactly once. -/
theorem C2_reboot_halt_witness :
    (ExecuteInProgressDocument sampleEnvReboot sampleDocState).2.countP isUpdateStatus = 0 ∧
    (ExecuteInProgressDocument sampleEnvReboot sampleDocState).2.countP isMoveDocument = 0 ∧
    runEvents "doc-1" "i-0abc" defaultLocationOfCurrent
      (ExecuteInProgressDocument sampleEnvReboot sampleDocState).2 = defaultLocationOfCurrent ∧
    (ExecuteInProgressDocument sampleEnvReboot sampleDocState).2.countP isUpdateNextScheduledDate = 1 ∧
    (ExecuteInProgressDocument sampleEnvReboot sampleDocState).2.countP isExecuteAssociation = 1 :=
  have h := C2_reboot_halt sampleEnvReboot sampleDocState "json" rfl rfl
  ⟨h.1, h.2.1, h.2.2.1 "doc-1" "i-0abc" defaultLocationOfCurrent, h.2.2.2.1, h.2.2.2.2⟩

/-- C7: a marshalling failure of the plugin outputs — before the reply is
persisted or after it, before terminal reporting — is logged and aborts only
the current step: the full trace is exactly the work done so far, the error
log, and the deferred cleanup pair, so no terminal status update and no
document move happen, the cleanup still runs, and nothing is propagated to a
caller (the routine has no error result at all). -/
theorem C7_marshal_failure_is_local (env : Env) (docState : DocumentState) :
    (∀ msg, env.marshalOutputsA env.runPluginsResult = Except.error msg →
      (ExecuteInProgressDocument env docState).2 =
        [Event.runPlugins docState.documentInformation.associationID,
         Event.logError "failed to parse to json string",
         Event.updateNextScheduledDate docState.documentInformation.associationID,
         Event.executeAssociation]) ∧
    (∀ s msg, env.marshalOutputsA env.runPluginsResult = Except.ok s →
      (mergedDocState env docState).IsRebootRequired = false →
      env.marshalOutputsB env.runPluginsResult = Except.error msg →
      (ExecuteInProgressDocument env docState).2 =
        Event.runPlugins docState.documentInformation.associationID ::
        (parseAndPersistReplyContents env docState env.runPluginsResult).2 ++
        [Event.logError "failed to parse to json string",
         Event.updateNextScheduledDate
           (mergedDocState env docState).documentInformation.associationID,
         Event.executeAssociation]) := by
  constructor
  · intro msg hA
    unfold ExecuteInProgressDocument ExecuteInProgressDocumentBody
    dsimp only
    simp only [hA]
    simp
  · intro s msg hA hR hB
    unfold mergedDocState at hR ⊢
    unfold ExecuteInProgressDocument ExecuteInProgressDocumentBody
    dsimp only
    simp only [hA, hB, hR, if_false]
    simp

/-- Concrete instances of the two marshalling-failure paths: each trace is
the work done so far, the error log, and the deferred cleanup pair. -/
theorem C7_marshal_failure_is_local_witness :
    (ExecuteInProgressDocument sampleEnvMarshalAFail sampleDocState).2 =
      [Event.runPlugins "assoc-1",
       Event.logError "failed to parse to json string",
       Event.updateNextScheduledDate "assoc-1", Event.executeAssociation] ∧
    (ExecuteInProgressDocument sampleEnvMarshalBFail sampleDocState).2 =
      [Event.runPlugins "assoc-1",
       Event.getDocumentInfo "doc-1" "i-0abc" defaultLocationOfCurrent,
       Event.persistDocumentInfo "doc-1" "i-0abc" defaultLocationOfCurrent,
       Event.logError "failed to parse to json string",
       Event.updateNextScheduledDate "assoc-1", Event.executeAssociation] :=
  ⟨(C7_marshal_failure_is_local sampleEnvMarshalAFail sampleDocState).1
      "bad json" rfl,
   (C7_marshal_failure_is_local sampleEnvMarshalBFail sampleDocState).2
      "json" "bad json" rfl rfl rfl⟩

/-- C6: with no reboot pending and all serializations succeeding, a Failed
aggregate status is reported as terminal status Failed with the
execution-error code, a Success aggregate status as Success with the no-error
code, any other aggregate value is reported nowhere (silent branch), and in
all three cases the document is then moved from the current to the completed
location. -/
theorem C6_terminal_report_and_move (env : Env) (docState : DocumentState)
    (s t u : String)
    (hA : env.marshalOutputsA env.runPluginsResult = Except.ok s)
    (hB : env.marshalOutputsB env.runPluginsResult = Except.ok t)
    (hR : (mergedDocState env docState).IsRebootRequired = false)
    (hM : env.marshalRuntimeStatuses
      (mergedDocState env docState).documentInformation.runtimeStatus = Except.ok u) :
    ((mergedDocState env docState).documentInformation.documentStatus = resultStatusFailed →
      (ExecuteInProgressDocument env docState).2 =
        Event.runPlugins docState.documentInformation.associationID ::
        (parseAndPersistReplyContents env docState env.runPluginsResult).2 ++
        [Event.updateStatus
           (mergedDocState env docState).documentInformation.associationID
           (mergedDocState env docState).documentInformation.documentName
           (mergedDocState env docState).documentInformation.instanceID
           associationStatusNameFailed associationErrorCodeExecutionError
           (buildOutput (mergedDocState env docState).documentInformation.runtimeStatus
             docState.instancePluginsInformation.length),
         Event.moveDocument (mergedDocState env docState).documentInformation.documentID
           (mergedDocState env docState).documentInformation.instanceID
           defaultLocationOfCurrent defaultLocationOfCompleted,
         Event.updateNextScheduledDate
           (mergedDocState env docState).documentInformation.associationID,
         Event.executeAssociation]) ∧
    ((mergedDocState env docState).documentInformation.documentStatus = resultStatusSuccess →
      (ExecuteInProgressDocument env docState).2 =
        Event.runPlugins docState.documentInformation.associationID ::
        (parseAndPersistReplyContents env docState env.runPluginsResult).2 ++
        [Event.updateStatus
           (mergedDocState env docState).documentInformation.associationID
           (mergedDocState env docState).documentInformation.documentName
           (mergedDocState env docState).documentInformation.instanceID
           associationStatusSuccess associationErrorCodeNoError
           (buildOutput (mergedDocState env docState).documentInformation.runtimeStatus
             docState.instancePluginsInformation.length),
         Event.moveDocument (mergedDocState env docState).documentInformation.documentID
           (mergedDocState env docState).documentInformation.instanceID
           defaultLocationOfCurrent defaultLocationOfCompleted,
         Event.updateNextScheduledDate
           (mergedDocState env docState).documentInformation.associationID,
         Event.executeAssociation]) ∧
    ((mergedDocState env docState).documentInformation.documentStatus ≠ resultStatusFailed →
      (mergedDocState env docState).documentInformation.documentStatus ≠ resultStatusSuccess →
      (ExecuteInProgressDocument env docState).2 =
        Event.runPlugins docState.documentInformation.associationID ::
        (parseAndPersistReplyContents env docState env.runPluginsResult).2 ++
        [Event.moveDocument (mergedDocState env docState).documentInformation.documentID
           (mergedDocState env docState).documentInformation.instanceID
           defaultLocationOfCurrent defaultLocationOfCompleted,
         Event.updateNextScheduledDate
           (mergedDocState env docState).documentInformation.associationID,
         Event.executeAssociation]) ∧
    runEvents (mergedDocState env docState).documentInformation.documentID
      (mergedDocState env docState).documentInformation.instanceID
      defaultLocationOfCurrent (ExecuteInProgressDocument env docState).2 =
      defaultLocationOfCompleted := by
  unfold mergedDocState at hR hM ⊢
  refine ⟨?_, ?_, ?_, ?_⟩
  · intro hF
    unfold ExecuteInProgressDocument ExecuteInProgressDocumentBody
      associationExecutionReport
    dsimp only
    simp only [hA, hB, hR, hF, hM, if_false]
    simp
  · intro hS
    have hF : (parseAndPersistReplyContents env docState
        env.runPluginsResult).1.documentInformation.documentStatus ≠
        resultStatusFailed := by
      rw [hS]; decide
    unfold ExecuteInProgressDocument ExecuteInProgressDocumentBody
      associationExecutionReport
    dsimp only
    simp only [hA, hB, hR, if_false]
    rw [if_neg hF, if_pos hS]
    simp only [hM]
    simp
  · intro hF hS
    unfold ExecuteInProgressDocument ExecuteInProgressDocumentBody
      associationExecutionReport
    dsimp only
    simp only [hA, hB, hR, hF, hS, if_false]
    simp
  · unfold ExecuteInProgressDocument ExecuteInProgressDocumentBody
      associationExecutionReport
    dsimp only
    simp only [hA, hB, hR, if_false]
    repeat' split
    all_goals simp_all [parseAndPersistReplyContents, runEvents, applyEvent]

/-- Concrete instances of the three terminal branches: Failed is reported
with the execution-error code, Success with the no-error code, any other
aggregate silently, and the document ends in the completed location. -/
theorem C6_terminal_report_and_move_witness :
    (ExecuteInProgressDocument sampleEnvFailedStatus sampleDocState).2 =
      [Event.runPlugins "assoc-1",
       Event.getDocumentInfo "doc-1" "i-0abc" defaultLocationOfCurrent,
       Event.persistDocumentInfo "doc-1" "i-0abc" defaultLocationOfCurrent,
       Event.updateStatus "assoc-1" "AWS-RunShellScript" "i-0abc"
         associationStatusNameFailed associationErrorCodeExecutionError
         "1 out of 1 plugin processed, 1 success, 0 failed, 0 timedout",
       Event.moveDocument "doc-1" "i-0abc" defaultLocationOfCurrent
         defaultLocationOfCompleted,
       Event.updateNextScheduledDate "assoc-1", Event.executeAssociation] ∧
    (ExecuteInProgressDocument sampleEnv sampleDocState).2 =
      [Event.runPlugins "assoc-1",
       Event.getDocumentInfo "doc-1" "i-0abc" defaultLocationOfCurrent,
       Event.persistDocumentInfo "doc-1" "i-0abc" defaultLocationOfCurrent,
       Event.updateStatus "assoc-1" "AWS-RunShellScript" "i-0abc"
         associationStatusSuccess associationErrorCodeNoError
         "1 out of 1 plugin processed, 1 success, 0 failed, 0 timedout",
       Event.moveDocument "doc-1" "i-0abc" defaultLocationOfCurrent
         defaultLocationOfCompleted,
       Event.updateNextScheduledDate "assoc-1", Event.executeAssociation] ∧
    (ExecuteInProgressDocument sampleEnvOtherStatus sampleDocState).2 =
      [Event.runPlugins "assoc-1",
       Event.getDocumentInfo "doc-1" "i-0abc" defaultLocationOfCurrent,
       Event.persistDocumentInfo "doc-1" "i-0abc" defaultLocationOfCurrent,
       Event.moveDocument "doc-1" "i-0abc" defaultLocationOfCurrent
         defaultLocationOfCompleted,
       Event.updateNextScheduledDate "assoc-1", Event.executeAssociation] ∧
    runEvents "doc-1" "i-0abc" defaultLocationOfCurrent
      (ExecuteInProgressDocument sampleEnv sampleDocState).2 =
      defaultLocationOfCompleted :=
  ⟨(C6_terminal_report_and_move sampleEnvFailedStatus sampleDocState
      "json" "json" "json" rfl rfl rfl rfl).1 rfl,
   (C6_terminal_report_and_move sampleEnv sampleDocState
      "json" "json" "json" rfl rfl rfl rfl).2.1 rfl,
   (C6_terminal_report_and_move sampleEnvOtherStatus sampleDocState
      "json" "json" "json" rfl rfl rfl rfl).2.2.1 (by decide) (by decide),
   (C6_terminal_report_and_move sampleEnv sampleDocState
      "json" "json" "json" rfl rfl rfl rfl).2.2.2⟩

/-- C8: the reply-persistence step first re-reads the persisted snapshot from
the current location, overwrites exactly the aggregate status, the per-plugin
runtime-status map, the trace output and the additional info with the reply
payload fields, leaves every other field of the reloaded snapshot and the
plugin list untouched, and persists the merged snapshot back to the current
location. -/
theorem C8_reply_merge_frame (env : Env) (docState : DocumentState)
    (pluginOutputs : PluginOutputs) :
    (parseAndPersistReplyContents env docState pluginOutputs).1.documentInformation.documentStatus =
      (env.prepareReplyPayload (env.prepareRuntimeStatuses pluginOutputs)).documentStatus ∧
    (parseAndPersistReplyContents env docState pluginOutputs).1.documentInformation.runtimeStatus =
      (env.prepareReplyPayload (env.prepareRuntimeStatuses pluginOutputs)).runtimeStatus ∧
    (parseAndPersistReplyContents env docState pluginOutputs).1.documentInformation.documentTraceOutput =
      (env.prepareReplyPayload (env.prepareRuntimeStatuses pluginOutputs)).documentTraceOutput ∧
    (parseAndPersistReplyContents env docState pluginOutputs).1.documentInformation.additionalInfo =
      (env.prepareReplyPayload (env.prepareRuntimeStatuses pluginOutputs)).additionalInfo ∧
    (parseAndPersistReplyContents env docState pluginOutputs).1.documentInformation.associationID =
      (env.getDocumentInfo docState.documentInformation.documentID
        docState.documentInformation.instanceID defaultLocationOfCurrent).associationID ∧
    (parseAndPersistReplyContents env docState pluginOutputs).1.documentInformation.documentID =
      (env.getDocumentInfo docState.documentInformation.documentID
        docState.documentInformation.instanceID defaultLocationOfCurrent).documentID ∧
    (parseAndPersistReplyContents env docState pluginOutputs).1.documentInformation.documentName =
      (env.getDocumentInfo docState.documentInformation.documentID
        docState.documentInformation.instanceID defaultLocationOfCurrent).documentName ∧
    (parseAndPersistReplyContents env docState pluginOutputs).1.documentInformation.instanceID =
      (env.getDocumentInfo docState.documentInformation.documentID
        docState.documentInformation.instanceID defaultLocationOfCurrent).instanceID ∧
    (parseAndPersistReplyContents env docState pluginOutputs).1.documentInformation.createdDate =
      (env.getDocumentInfo docState.documentInformation.documentID
        docState.documentInformation.instanceID defaultLocationOfCurrent).createdDate ∧
    (parseAndPersistReplyContents env docState pluginOutputs).1.documentInformation.rebootRequired =
      (env.getDocumentInfo docState.documentInformation.documentID
        docState.documentInformation.instanceID defaultLocationOfCurrent).rebootRequired ∧
    (parseAndPersistReplyContents env docState pluginOutputs).1.instancePluginsInformation =
      docState.instancePluginsInformation ∧
    (parseAndPersistReplyContents env docState pluginOutputs).2 =
      [Event.getDocumentInfo docState.documentInformation.documentID
        docState.documentInformation.instanceID defaultLocationOfCurrent,
       Event.persistDocumentInfo
        (parseAndPersistReplyContents env docState pluginOutputs).1.documentInformation.documentID
        (parseAndPersistReplyContents env docState pluginOutputs).1.documentInformation.instanceID
        defaultLocationOfCurrent] :=
  ⟨rfl, rfl, rfl, rfl, rfl, rfl, rfl, rfl, rfl, rfl, rfl, rfl⟩

/-- C9: the progress callback pushes a single in-progress status update
carrying the execution summary exactly when the service is in
instance-association API mode and marshalling and instance-id resolution
succeed; when the capability is absent it pushes no status update; marshal
and instance-id failures produce only an error log — the callback returns no
error and emits nothing that could abort the plugin sequence. -/
theorem C9_progress_callback (env : Env) (associationID : String)
    (pluginOutputs : PluginOutputs) (totalNumberOfPlugins : Nat) :
    (env.isInstanceAssociationApiMode = false →
      (pluginExecutionReport env associationID pluginOutputs
        totalNumberOfPlugins).countP isUpdateStatus = 0) ∧
    (∀ s instanceID, env.marshalOutputsCB pluginOutputs = Except.ok s →
      env.instanceID = Except.ok instanceID →
      env.isInstanceAssociationApiMode = true →
      pluginExecutionReport env associationID pluginOutputs totalNumberOfPlugins =
        [Event.updateStatus associationID "" instanceID
          associationStatusInProgress associationErrorCodeNoError
          (buildOutput (env.prepareRuntimeStatuses pluginOutputs)
            totalNumberOfPlugins)]) ∧
    (∀ msg, env.marshalOutputsCB pluginOutputs = Except.error msg →
      pluginExecutionReport env associationID pluginOutputs totalNumberOfPlugins =
        [Event.logError "could not marshal plugin outputs!"]) ∧
    (∀ s msg, env.marshalOutputsCB pluginOutputs = Except.ok s →
      env.instanceID = Except.error msg →
      env.isInstanceAssociationApiMode = true →
      pluginExecutionReport env associationID pluginOutputs totalNumberOfPlugins =
        [Event.logError "failed to load instance id"]) := by
  refine ⟨?_, ?_, ?_, ?_⟩
  · intro hMode
    unfold pluginExecutionReport
    rcases hCB : env.marshalOutputsCB pluginOutputs with msg | s <;>
      simp [hCB, hMode, isUpdateStatus]
  · intro s instanceID hCB hIID hMode
    unfold pluginExecutionReport
    simp [hCB, hIID, hMode]
  · intro msg hCB
    unfold pluginExecutionReport
    simp [hCB]
  · intro s msg hCB hIID hMode
    unfold pluginExecutionReport
    simp [hCB, hIID, hMode]

/-- Concrete instances of the progress callback: the in-progress update with
the summary in API mode, no update in legacy mode, and only an error log on
marshal or instance-id failure. -/
theorem C9_progress_callback_witness :
    pluginExecutionReport sampleEnv "assoc-1" sampleEnv.runPluginsResult 1 =
      [Event.updateStatus "assoc-1" "" "i-0abc" associationStatusInProgress
        associationErrorCodeNoError
        "1 out of 1 plugin processed, 1 success, 0 failed, 0 timedout"] ∧
    (pluginExecutionReport sampleEnvLegacy "assoc-1"
      sampleEnv.runPluginsResult 1).countP isUpdateStatus = 0 ∧
    pluginExecutionReport sampleEnvMarshalCBFail "assoc-1"
      sampleEnv.runPluginsResult 1 =
      [Event.logError "could not marshal plugin outputs!"] ∧
    pluginExecutionReport sampleEnvNoInstanceID "assoc-1"
      sampleEnv.runPluginsResult 1 =
      [Event.logError "failed to load instance id"] :=
  ⟨(C9_progress_callback sampleEnv "assoc-1" sampleEnv.runPluginsResult 1).2.1
      "json" "i-0abc" rfl rfl rfl,
   (C9_progress_callback sampleEnvLegacy "assoc-1"
      sampleEnv.runPluginsResult 1).1 rfl,
   (C9_progress_callback sampleEnvMarshalCBFail "assoc-1"
      sampleEnv.runPluginsResult 1).2.2.1 "bad json" rfl,
   (C9_progress_callback sampleEnvNoInstanceID "assoc-1"
      sampleEnv.runPluginsResult 1).2.2.2 "json" "no metadata" rfl rfl rfl⟩

/-- C3: enqueueing a pending document performs, in order, the pending remote
status report, the move of the record from the pending to the current
location, and the worker-pool submission keyed by the association id; it
fails with a wrapped error exactly when submission fails, and a document that
started in the pending location has already been moved to the current
location regardless of the submission outcome. -/
theorem C3_enqueue_order_and_error (env : Env) (docState : DocumentState) :
    (ExecutePendingDocument env docState).2 =
      [Event.updateStatus docState.documentInformation.associationID
        docState.documentInformation.documentName
        docState.documentInformation.instanceID
        associationStatusPending associationErrorCodeNoError
        documentPendingMessage,
       Event.moveDocument docState.documentInformation.documentID
        docState.documentInformation.instanceID
        defaultLocationOfPending defaultLocationOfCurrent,
       Event.submit docState.documentInformation.associationID] ∧
    ((ExecutePendingDocument env docState).1 = none ↔ env.submitResult = none) ∧
    (∀ err, env.submitResult = some err →
      (ExecutePendingDocument env docState).1 =
        some ("failed to process association, " ++ err)) ∧
    runEvents docState.documentInformation.documentID
      docState.documentInformation.instanceID defaultLocationOfPending
      (ExecutePendingDocument env docState).2 = defaultLocationOfCurrent := by
  refine ⟨?_, ?_, ?_, ?_⟩
  · unfold ExecutePendingDocument
    rcases h : env.submitResult with _ | err <;> simp [h]
  · unfold ExecutePendingDocument
    rcases h : env.submitResult with _ | err <;> simp [h]
  · intro err h
    unfold ExecutePendingDocument
    simp [h]
  · unfold ExecutePendingDocument
    rcases h : env.submitResult with _ | err <;>
      simp [h, runEvents, applyEvent]

/-- Concrete instance of the enqueue operation with a failing worker pool:
the wrapped error is returned and the document has ended in the current
location. -/
theorem C3_enqueue_order_and_error_witness :
    (ExecutePendingDocument sampleEnvSubmitFail sampleDocState).1 =
      some "failed to process association, pool is closed" ∧
    runEvents "doc-1" "i-0abc" defaultLocationOfPending
      (ExecutePendingDocument sampleEnvSubmitFail sampleDocState).2 =
      defaultLocationOfCurrent :=
  ⟨(C3_enqueue_order_and_error sampleEnvSubmitFail sampleDocState).2.2.1
      "pool is closed" rfl,
   (C3_enqueue_order_and_error sampleEnvSubmitFail sampleDocState).2.2.2⟩

/-- C10: the error result of the enqueue operation depends only on the
worker-pool submission: the pending status update and the pending-to-current
move are emitted on every run (their own failures are not even observed), and
the operation returns nil exactly when submission succeeds, a wrapped error
exactly when it fails. -/
theorem C10_enqueue_error_only_from_submit (env : Env) (docState : DocumentState) :
    ((ExecutePendingDocument env docState).1 = none ↔ env.submitResult = none) ∧
    (∀ err, env.submitResult = some err →
      (ExecutePendingDocument env docState).1 =
        some ("failed to process association, " ++ err)) ∧
    (ExecutePendingDocument env docState).2.countP isUpdateStatus = 1 ∧
    (ExecutePendingDocument env docState).2.countP isMoveDocument = 1 := by
  refine ⟨?_, ?_, ?_, ?_⟩
  · unfold ExecutePendingDocument
    rcases h : env.submitResult with _ | err <;> simp [h]
  · intro err h
    unfold ExecutePendingDocument
    simp [h]
  · unfold ExecutePendingDocument
    rcases h : env.submitResult with _ | err <;>
      simp [h, isUpdateStatus, List.countP_cons]
  · unfold ExecutePendingDocument
    rcases h : env.submitResult with _ | err <;>
      simp [h, isMoveDocument, List.countP_cons]

/-- Concrete instances of the enqueue result: nil on successful submission,
the wrapped error on failed submission, with the status update and the move
emitted in both runs. -/
theorem C10_enqueue_error_only_from_submit_witness :
    (ExecutePendingDocument sampleEnv sampleDocState).1 = none ∧
    (ExecutePendingDocument sampleEnvSubmitFail sampleDocState).1 =
      some "failed to process association, pool is closed" ∧
    (ExecutePendingDocument sampleEnvSubmitFail sampleDocState).2.countP
      isUpdateStatus = 1 ∧
    (ExecutePendingDocument sampleEnvSubmitFail sampleDocState).2.countP
      isMoveDocument = 1 :=
  ⟨(C10_enqueue_error_only_from_submit sampleEnv sampleDocState).1.mpr rfl,
   (C10_enqueue_error_only_from_submit sampleEnvSubmitFail sampleDocState).2.1
      "pool is closed" rfl,
   (C10_enqueue_error_only_from_submit sampleEnvSubmitFail sampleDocState).2.2.1,
   (C10_enqueue_error_only_from_submit sampleEnvSubmitFail sampleDocState).2.2.2⟩

/-- C4: the status aggregator is a pure function of the runtime-status
mapping and the declared total: processed counts the entries whose status is
set (not the unset not-started value), succeeded those with status in the set
of success, success-and-reboot and passed-and-reboot, failed those with
status failed, timed-out those with status timed-out, and equal inputs yield
the identical summary string. -/
theorem C4_aggregator_counts (runtimeStatuses : RuntimeStatusMap)
    (totalNumberOfPlugins : Nat) :
    (buildOutput runtimeStatuses totalNumberOfPlugins =
      outputMessageTemplate
        (runtimeStatuses.countP fun entry =>
          decide (entry.2.status ≠ resultStatusNotStarted))
        totalNumberOfPlugins
        (if totalNumberOfPlugins > 1 then "s" else "")
        (runtimeStatuses.countP fun entry =>
          decide (entry.2.status = resultStatusSuccess ∨
            entry.2.status = resultStatusSuccessAndReboot ∨
            entry.2.status = resultStatusPassedAndReboot))
        (runtimeStatuses.countP fun entry =>
          decide (entry.2.status = resultStatusFailed))
        (runtimeStatuses.countP fun entry =>
          decide (entry.2.status = resultStatusTimedOut))) ∧
    ∀ other total2, runtimeStatuses = other → totalNumberOfPlugins = total2 →
      buildOutput runtimeStatuses totalNumberOfPlugins = buildOutput other total2 := by
  constructor
  · unfold buildOutput filterByStatus
    dsimp only
    rw [← List.countP_eq_length_filter, ← List.countP_eq_length_filter,
      ← List.countP_eq_length_filter, ← List.countP_eq_length_filter]
    have hset : runtimeStatuses.countP (fun entry => entry.2.status != "") =
        runtimeStatuses.countP fun entry =>
          decide (entry.2.status ≠ resultStatusNotStarted) := by
      apply List.countP_congr
      intro entry _
      by_cases h : entry.2.status = resultStatusNotStarted <;>
        simp [h, resultStatusNotStarted]
    have hsucc : runtimeStatuses.countP (fun entry =>
        entry.2.status == resultStatusPassedAndReboot ||
        entry.2.status == resultStatusSuccessAndReboot ||
        entry.2.status == resultStatusSuccess) =
        runtimeStatuses.countP fun entry =>
          decide (entry.2.status = resultStatusSuccess ∨
            entry.2.status = resultStatusSuccessAndReboot ∨
            entry.2.status = resultStatusPassedAndReboot) := by
      apply List.countP_congr
      intro entry _
      by_cases h1 : entry.2.status = resultStatusPassedAndReboot <;>
        by_cases h2 : entry.2.status = resultStatusSuccessAndReboot <;>
        by_cases h3 : entry.2.status = resultStatusSuccess <;>
        simp [h1, h2, h3]
    have hfail : runtimeStatuses.countP (fun entry =>
        entry.2.status == resultStatusFailed) =
        runtimeStatuses.countP fun entry =>
          decide (entry.2.status = resultStatusFailed) := by
      apply List.countP_congr
      intro entry _
      by_cases h : entry.2.status = resultStatusFailed <;> simp [h]
    have htime : runtimeStatuses.countP (fun entry =>
        entry.2.status == resultStatusTimedOut) =
        runtimeStatuses.countP fun entry =>
          decide (entry.2.status = resultStatusTimedOut) := by
      apply List.countP_congr
      intro entry _
      by_cases h : entry.2.status = resultStatusTimedOut <;> simp [h]
    rw [hset, hsucc, hfail, htime]
  · intro other total2 h1 h2
    rw [h1, h2]

/-- Concrete instance of the aggregator counts: three declared plugins, one
succeeded, one failed, one not yet started. -/
theorem C4_aggregator_counts_witness :
    buildOutput
      [("p1", { status := resultStatusSuccess, output := "ok" }),
       ("p2", { status := resultStatusFailed, output := "err" }),
       ("p3", { status := resultStatusNotStarted, output := "" })] 3 =
      "2 out of 3 plugins processed, 1 success, 1 failed, 0 timedout" ∧
    buildOutput
      [("p1", { status := resultStatusSuccess, output := "ok" }),
       ("p2", { status := resultStatusFailed, output := "err" }),
       ("p3", { status := resultStatusNotStarted, output := "" })] 3 =
    buildOutput
      [("p1", { status := resultStatusSuccess, output := "ok" }),
       ("p2", { status := resultStatusFailed, output := "err" }),
       ("p3", { status := resultStatusNotStarted, output := "" })] 3 :=
  ⟨(C4_aggregator_counts
      [("p1", { status := resultStatusSuccess, output := "ok" }),
       ("p2", { status := resultStatusFailed, output := "err" }),
       ("p3", { status := resultStatusNotStarted, output := "" })] 3).1,
   (C4_aggregator_counts
      [("p1", { status := resultStatusSuccess, output := "ok" }),
       ("p2", { status := resultStatusFailed, output := "err" }),
       ("p3", { status := resultStatusNotStarted, output := "" })] 3).2 _ 3 rfl rfl⟩

/-- C5 as stated is false at total = 0: the claim requires a trailing s on
"plugin" when the declared total is 0, but the code appends the suffix only
when the total is strictly greater than 1, so the empty mapping with total 0
yields the singular sentence. -/
theorem C5_plural_counterexample :
    buildOutput [] 0 =
      "0 out of 0 plugin processed, 0 success, 0 failed, 0 timedout" ∧
    buildOutput [] 0 ≠
      "0 out of 0 plugins processed, 0 success, 0 failed, 0 timedout" := by
  constructor
  · rfl
  · decide

/-- C5 amended: the summary is exactly the templated sentence, and the plural
suffix on "plugin" keys off the declared total with a trailing s exactly when
total is greater than 1 — no suffix when total is 0 or 1. -/
theorem C5_plural_amended (runtimeStatuses : RuntimeStatusMap) (total : Nat) :
    (total ≤ 1 → buildOutput runtimeStatuses total =
      outputMessageTemplate
        (filterByStatus runtimeStatuses fun status => status != "").length
        total ""
        (filterByStatus runtimeStatuses fun status =>
          status == resultStatusPassedAndReboot ||
          status == resultStatusSuccessAndReboot ||
          status == resultStatusSuccess).length
        (filterByStatus runtimeStatuses fun status =>
          status == resultStatusFailed).length
        (filterByStatus runtimeStatuses fun status =>
          status == resultStatusTimedOut).length) ∧
    (1 < total → buildOutput runtimeStatuses total =
      outputMessageTemplate
        (filterByStatus runtimeStatuses fun status => status != "").length
        total "s"
        (filterByStatus runtimeStatuses fun status =>
          status == resultStatusPassedAndReboot ||
          status == resultStatusSuccessAndReboot ||
          status == resultStatusSuccess).length
        (filterByStatus runtimeStatuses fun status =>
          status == resultStatusFailed).length
        (filterByStatus runtimeStatuses fun status =>
          status == resultStatusTimedOut).length) := by
  constructor
  · intro h
    unfold buildOutput
    dsimp only
    rw [if_neg (by omega)]
  · intro h
    unfold buildOutput
    dsimp only
    rw [if_pos h]

/-- Concrete instances of the pluralization rule: total 1 gives the singular
sentence, total 2 the plural one, over the same single-entry mapping. -/
theorem C5_plural_amended_witness :
    buildOutput [("p1", { status := resultStatusSuccess, output := "ok" })] 1 =
      "1 out of 1 plugin processed, 1 success, 0 failed, 0 timedout" ∧
    buildOutput [("p1", { status := resultStatusSuccess, output := "ok" })] 2 =
      "1 out of 2 plugins processed, 1 success, 0 failed, 0 timedout" :=
  ⟨(C5_plural_amended
      [("p1", { status := resultStatusSuccess, output := "ok" })] 1).1
      (by decide),
   (C5_plural_amended
      [("p1", { status := resultStatusSuccess, output := "ok" })] 2).2
      (by decide)⟩

end Executer
